import Mathlib

set_option maxRecDepth 4096

/-!
Verification of the RepoChief TODO demo runner (Liftping/repochief-demo-todo).

This file shallowly embeds the scenario task planner of `run-demo.js`
(the `TodoDemoRunner` class), the scenario lookup of `src/index.js`, and
the verdict logic of `test-e2e.js`, and proves or refutes the spec's
testable properties about them.

Conventions of the embedding:
- JavaScript objects that are built literally in the source become Lean
  structures; fields that a given literal omits keep the structure's
  default (`none` / `[]`), mirroring `undefined` / absent keys.
- `agentId: this.agents.analyst.id` is modelled by recording the agent
  slot name (`"analyst"`, `"developer"`, ...) the task is wired to; the
  slot-to-template mapping of `createAgents` is embedded separately.
- Throwing code is modelled with `Except` / `Option`; a JS `null` return
  is `Option.none` (a normal value, not an error).
-/

/-- A task specification as passed to `orchestrator.queueTask` in
`run-demo.js` (`queueTasks`, lines 187-274).  Fields that some task
literals omit default to `none` / `[]`, like absent keys in JS. -/
structure TaskDef where
  id : String
  type : String
  objective : String
  description : Option String := none
  dependencies : List String := []
  context : List String := []
  successCriteria : List String := []
  specificChecks : List String := []
  qualityGates : List String := []
  maxTokens : Nat
  agentSlot : String
deriving DecidableEq, Repr

/-- The shared requirements text of `getRequirementsDescription`
(`run-demo.js` lines 283-289), template literal reproduced verbatim. -/
def requirementsBase : String :=
  "Understand the requirements for a TODO API with the following features:\n            - CRUD operations (Create, Read, Update, Delete)\n            - Task model with: id, title, description, completed, createdAt, updatedAt\n            - RESTful endpoints following best practices\n            - Input validation\n            - Error handling\n            - JSON responses"

/-- The extra requirements text appended for the enterprise scenario
(`run-demo.js` lines 292-297), template literal reproduced verbatim. -/
def enterpriseRequirementsExtra : String :=
  "\n            - JWT authentication\n            - User association (tasks belong to users)\n            - PostgreSQL database integration\n            - Docker containerization\n            - Rate limiting and security headers"

/-- `getRequirementsDescription` (`run-demo.js` lines 282-301): the base
text, with extra enterprise requirements appended when
`this.scenario === 'enterprise'`. -/
def getRequirementsDescription (scenario : String) : String :=
  if scenario = "enterprise" then
    requirementsBase ++ enterpriseRequirementsExtra
  else
    requirementsBase

/-- The base success criteria of `getApiSuccessCriteria`
(`run-demo.js` lines 304-309). -/
def apiCriteriaBase : List String :=
  ["Express.js REST API implementation",
   "All CRUD endpoints (GET, POST, PUT, DELETE)",
   "Proper error handling and validation",
   "Clean code structure with router separation"]

/-- The three success criteria pushed for the enterprise scenario
(`run-demo.js` lines 314-316). -/
def enterpriseApiCriteriaExtra : List String :=
  ["PostgreSQL integration with migrations",
   "JWT authentication middleware",
   "User-scoped todo operations"]

/-- `getApiSuccessCriteria` (`run-demo.js` lines 303-320): base criteria,
plus one push for `basic` and three pushes for `enterprise`. -/
def getApiSuccessCriteria (scenario : String) : List String :=
  if scenario = "basic" then
    apiCriteriaBase ++ ["In-memory storage for demo purposes"]
  else if scenario = "enterprise" then
    apiCriteriaBase ++ enterpriseApiCriteriaExtra
  else
    apiCriteriaBase

/-- Task 1 of `queueTasks` (`run-demo.js` lines 191-198). -/
def comprehendTask (scenario : String) : TaskDef :=
  { id := "comprehend-todo-api"
    type := "comprehension"
    objective := "Analyze requirements for a RESTful TODO API"
    description := some (getRequirementsDescription scenario)
    maxTokens := 10000
    agentSlot := "analyst" }

/-- Task 2 of `queueTasks` (`run-demo.js` lines 201-210). -/
def generateTask (scenario : String) : TaskDef :=
  { id := "generate-todo-api"
    type := "generation"
    objective := "Implement TODO API with Express.js"
    dependencies := ["comprehend-todo-api"]
    context := [".repochief/artifacts/comprehend-todo-api/analysis.md"]
    successCriteria := getApiSuccessCriteria scenario
    maxTokens := 50000
    agentSlot := "developer" }

/-- Task 3 of `queueTasks` (`run-demo.js` lines 213-228). -/
def testTask : TaskDef :=
  { id := "test-todo-api"
    type := "generation"
    objective := "Write comprehensive tests for TODO API"
    dependencies := ["generate-todo-api"]
    context := [".repochief/artifacts/generate-todo-api/code/"]
    successCriteria :=
      ["Unit tests for all endpoints",
       "Test coverage > 80%",
       "Mock dependencies properly",
       "Test error cases and edge cases",
       "Use Mocha + Chai + Sinon"]
    maxTokens := 30000
    agentSlot := "tester" }

/-- Task 4 of `queueTasks`, queued only for non-basic scenarios
(`run-demo.js` lines 233-252). -/
def validateTask : TaskDef :=
  { id := "validate-todo-api"
    type := "validation"
    objective := "Review code quality and security"
    dependencies := ["generate-todo-api", "test-todo-api"]
    context :=
      [".repochief/artifacts/generate-todo-api/code/",
       ".repochief/artifacts/test-todo-api/code/"]
    specificChecks :=
      ["Code follows best practices",
       "No security vulnerabilities",
       "Proper input validation",
       "Good error handling",
       "Clean code structure"]
    qualityGates := ["eslint", "test", "complexity"]
    maxTokens := 20000
    agentSlot := "reviewer" }

/-- Task 5 of `queueTasks`, queued only for non-basic scenarios
(`run-demo.js` lines 255-270). -/
def frontendTask : TaskDef :=
  { id := "generate-todo-frontend"
    type := "generation"
    objective := "Create React frontend for TODO app"
    dependencies := ["generate-todo-api"]
    context := [".repochief/artifacts/generate-todo-api/api-spec.json"]
    successCriteria :=
      ["React functional components with hooks",
       "Responsive design with Tailwind CSS",
       "API integration with fetch/axios",
       "Error handling and loading states",
       "Add, edit, delete, and complete todos"]
    maxTokens := 40000
    agentSlot := "frontend" }

/-- `TodoDemoRunner.queueTasks` (`run-demo.js` lines 187-274) as the pure
mapping from scenario identifier to the ordered list of queued task
specifications: the three core tasks always, then `validate` and
`generate-frontend` when `this.scenario !== 'basic'`. -/
def queueTasks (scenario : String) : List TaskDef :=
  [comprehendTask scenario, generateTask scenario, testTask] ++
    (if scenario ≠ "basic" then [validateTask, frontendTask] else [])

/-- `TodoDemoRunner.createAgents` (`run-demo.js` lines 151-175) as the
ordered list of (slot, agent name, template/role) the runner creates:
three core agents always, reviewer and frontend for non-basic scenarios. -/
def createAgents (scenario : String) : List (String × String × String) :=
  [("analyst", "Alice-Analyst", "REQUIREMENTS_ANALYST"),
   ("developer", "Bob-Developer", "SENIOR_DEVELOPER"),
   ("tester", "Carol-QA", "QA_ENGINEER")] ++
    (if scenario ≠ "basic" then
      [("reviewer", "David-Reviewer", "CODE_REVIEWER"),
       ("frontend", "Eve-Frontend", "frontend_developer")]
    else [])

/-- Every dependency of every task refers to the id of a task occurring
strictly earlier in the list (`seen` accumulates the ids already
defined). -/
def noForwardRefs : List String → List TaskDef → Bool
  | _, [] => true
  | seen, t :: rest =>
    t.dependencies.all (fun d => seen.contains d) && noForwardRefs (t.id :: seen) rest

/-- Claim C3: for the basic scenario, exactly 3 tasks are queued, in
order `comprehend-todo-api`, `generate-todo-api`, `test-todo-api`, each
assigned to a distinct agent slot (analyst, developer, tester
respectively). -/
theorem basic_scenario_three_tasks :
    (queueTasks "basic").length = 3 ∧
    (queueTasks "basic").map (fun t => (t.id, t.agentSlot)) =
      [("comprehend-todo-api", "analyst"),
       ("generate-todo-api", "developer"),
       ("test-todo-api", "tester")] ∧
    ((queueTasks "basic").map TaskDef.agentSlot).Nodup := by
  refine ⟨rfl, rfl, ?_⟩
  decide

/-- Claim C4: for the enterprise scenario, exactly 5 tasks are queued;
the validate task depends exactly on `generate-todo-api` and
`test-todo-api`, and the frontend task depends exactly on
`generate-todo-api`. -/
theorem enterprise_scenario_five_tasks :
    (queueTasks "enterprise").length = 5 ∧
    ((queueTasks "enterprise").filter (fun t => t.id == "validate-todo-api")).map
        TaskDef.dependencies = [["generate-todo-api", "test-todo-api"]] ∧
    ((queueTasks "enterprise").filter (fun t => t.id == "generate-todo-frontend")).map
        TaskDef.dependencies = [["generate-todo-api"]] := by
  refine ⟨rfl, ?_, ?_⟩ <;> rfl

/-- Claim C5: for every supported scenario identifier, the task list is
non-empty, its ids are pairwise distinct, and every dependency refers to
a task defined earlier in the list (hence no forward references and an
acyclic dependency graph). -/
theorem supported_scenarios_wellformed :
    (queueTasks "basic" ≠ [] ∧
      ((queueTasks "basic").map TaskDef.id).Nodup ∧
      noForwardRefs [] (queueTasks "basic") = true) ∧
    (queueTasks "fullstack" ≠ [] ∧
      ((queueTasks "fullstack").map TaskDef.id).Nodup ∧
      noForwardRefs [] (queueTasks "fullstack") = true) ∧
    (queueTasks "enterprise" ≠ [] ∧
      ((queueTasks "enterprise").map TaskDef.id).Nodup ∧
      noForwardRefs [] (queueTasks "enterprise") = true) := by
  refine ⟨⟨?_, ?_, rfl⟩, ⟨?_, ?_, rfl⟩, ⟨?_, ?_, rfl⟩⟩ <;> decide

/-- Claim C2: by id, the fullstack task list is a superset of the basic
one; the enterprise task list is structurally equal to the fullstack one
(same ids and same dependency lists, position by position); from position
2 on the two lists are identical, and the first two positions are the
shared `comprehend-todo-api` / `generate-todo-api` tasks, where only the
description (resp. success criteria) is augmented: the enterprise text is
the fullstack text extended by a suffix, and every other field
coincides. -/
theorem fullstack_enterprise_extension :
    ((queueTasks "basic").map TaskDef.id).all
        (fun i => ((queueTasks "fullstack").map TaskDef.id).contains i) = true ∧
    (queueTasks "enterprise").map (fun t => (t.id, t.dependencies)) =
      (queueTasks "fullstack").map (fun t => (t.id, t.dependencies)) ∧
    (queueTasks "enterprise").drop 2 = (queueTasks "fullstack").drop 2 ∧
    ((queueTasks "enterprise").take 2).map TaskDef.id =
      ["comprehend-todo-api", "generate-todo-api"] ∧
    getRequirementsDescription "enterprise" =
      getRequirementsDescription "fullstack" ++ enterpriseRequirementsExtra ∧
    getApiSuccessCriteria "enterprise" =
      getApiSuccessCriteria "fullstack" ++ enterpriseApiCriteriaExtra ∧
    ({ comprehendTask "enterprise" with
        description := (comprehendTask "fullstack").description } =
      comprehendTask "fullstack") ∧
    ({ generateTask "enterprise" with
        successCriteria := (generateTask "fullstack").successCriteria } =
      generateTask "fullstack") := by
  refine ⟨?_, rfl, rfl, rfl, rfl, rfl, rfl, rfl⟩
  decide

/-- The runner state produced by the `TodoDemoRunner` constructor: the
four configuration fields (`run-demo.js` lines 36-44); the
orchestrator/api/agents handles it also initialises carry no
configuration and are left out. -/
structure RunnerState where
  scenario : String
  mockMode : Bool
  budget : Nat
  verbose : Bool
deriving DecidableEq, Repr

/-- The options object accepted by the `TodoDemoRunner` constructor; a
`none` field models an absent (`undefined`) key. -/
structure RunnerOptions where
  scenario : Option String := none
  mockMode : Option Bool := none
  budget : Option Nat := none
  verbose : Option Bool := none
deriving DecidableEq, Repr

/-- JavaScript `v || dflt` on an optional string: `undefined` and the
empty string are falsy and give the default. -/
def jsOrString (v : Option String) (dflt : String) : String :=
  match v with
  | none => dflt
  | some s => if s = "" then dflt else s

/-- JavaScript `v || dflt` on an optional number restricted to naturals:
`undefined` and `0` are falsy and give the default. -/
def jsOrNat (v : Option Nat) (dflt : Nat) : Nat :=
  match v with
  | none => dflt
  | some n => if n = 0 then dflt else n

/-- `TodoDemoRunner` constructor (`run-demo.js` lines 36-44):
`scenario = options.scenario || 'basic'`,
`mockMode = options.mockMode !== undefined ? options.mockMode : true`,
`budget = options.budget || 10`, `verbose = options.verbose || false`. -/
def todoDemoRunnerNew (options : RunnerOptions) : RunnerState :=
  { scenario := jsOrString options.scenario "basic"
    mockMode :=
      match options.mockMode with
      | none => true
      | some b => b
    budget := jsOrNat options.budget 10
    verbose :=
      match options.verbose with
      | none => false
      | some v => v }

/-- `queueTasks` at the runner level: the method reads only
`this.scenario` (the agent slots it references are themselves fixed by
the scenario). -/
def runnerQueueTasks (st : RunnerState) : List TaskDef :=
  queueTasks st.scenario

/-- `createAgents` at the runner level, likewise a function of
`this.scenario` only. -/
def runnerCreateAgents (st : RunnerState) : List (String × String × String) :=
  createAgents st.scenario

/-- Claim C6: the planner mapping is deterministic — two runner states
agreeing on the scenario (whatever their mock-mode, budget or verbosity)
produce identical task lists and identical agent requests; there is no
other input, randomness or I/O in the mapping. -/
theorem planner_deterministic (s1 s2 : RunnerState)
    (h : s1.scenario = s2.scenario) :
    runnerQueueTasks s1 = runnerQueueTasks s2 ∧
    runnerCreateAgents s1 = runnerCreateAgents s2 := by
  unfold runnerQueueTasks runnerCreateAgents
  rw [h]
  exact ⟨rfl, rfl⟩

/-- Witness for C6: two concrete states differing in every field except
the scenario give the same plan. -/
theorem planner_deterministic_witness :
    runnerQueueTasks ⟨"fullstack", true, 10, false⟩ =
      runnerQueueTasks ⟨"fullstack", false, 3, true⟩ ∧
    runnerCreateAgents ⟨"fullstack", true, 10, false⟩ =
      runnerCreateAgents ⟨"fullstack", false, 3, true⟩ :=
  planner_deterministic ⟨"fullstack", true, 10, false⟩ ⟨"fullstack", false, 3, true⟩ rfl

/-- A scenario preset (name, agent count, description) as in the
`SCENARIOS` table of `run-demo.js` (lines 17-33). -/
structure ScenarioConfig where
  name : String
  agents : Nat
  description : String
deriving DecidableEq, Repr

/-- The `SCENARIOS` table (`run-demo.js` lines 17-33); indexing the
object with a key it lacks yields `undefined` (`none`). -/
def SCENARIOS (key : String) : Option ScenarioConfig :=
  if key = "basic" then
    some ⟨"Basic TODO API", 3, "REST API with tests"⟩
  else if key = "fullstack" then
    some ⟨"Full Stack TODO App", 5, "API + Frontend + Quality validation"⟩
  else if key = "enterprise" then
    some ⟨"Enterprise TODO App", 5, "Full app with auth, DB, and Docker"⟩
  else
    none

/-- Modelled from the spec: `scenarios/config.json`, the file
`src/index.js` reads its scenario table from, is not among the sources;
per the spec the scenario identifiers form the fixed closed set
basic / fullstack / enterprise, so a lookup keyed on exactly those three
identifiers stands in for `scenarios.scenarios[scenarioId]`. -/
def scenariosConfigLookup (scenarioId : String) : Option ScenarioConfig :=
  SCENARIOS scenarioId

/-- `getScenarioConfig` (`src/index.js` lines 34-36):
`scenarios.scenarios[scenarioId] || null` — the stored configuration, or
`null` (`none`) for an unknown identifier; it never throws. -/
def getScenarioConfig (scenarioId : String) : Option ScenarioConfig :=
  scenariosConfigLookup scenarioId

/-- `displayConfig` (`run-demo.js` lines 116-124) dereferences
`SCENARIOS[this.scenario].name`: on an identifier outside the table the
lookup is `undefined` and the dereference raises a `TypeError`. -/
def displayConfig (st : RunnerState) : Except String ScenarioConfig :=
  match SCENARIOS st.scenario with
  | none => Except.error "TypeError: cannot read properties of undefined"
  | some c => Except.ok c

/-- Claim C1 counterexample: the empty-string identifier lies outside
{basic, fullstack, enterprise}, yet the constructor silently replaces it
with the default scenario `basic`, whose task list is then used; and on
the unknown identifier `custom`, `getScenarioConfig` returns `null`
rather than failing with a `ConfigurationError`. -/
theorem unknown_scenario_counterexample :
    ("" ∉ ["basic", "fullstack", "enterprise"]) ∧
    (todoDemoRunnerNew { scenario := some "" }).scenario = "basic" ∧
    runnerQueueTasks (todoDemoRunnerNew { scenario := some "" }) =
      queueTasks "basic" ∧
    getScenarioConfig "custom" = none := by
  exact ⟨by decide, rfl, rfl, rfl⟩

/-- Claim C1 amended: no `ConfigurationError` exists in the code. The
constructor silently replaces a falsy scenario option (absent or empty
string) with the default `basic` and keeps any non-empty identifier
unchanged; for a non-empty identifier outside the fixed set,
`getScenarioConfig` returns `null` instead of throwing, and the demo
fails only later with a `TypeError` when `displayConfig` dereferences the
undefined `SCENARIOS` entry. -/
theorem unknown_scenario_amended (s : String)
    (h1 : s ≠ "basic") (h2 : s ≠ "fullstack") (h3 : s ≠ "enterprise") :
    getScenarioConfig s = none ∧
    (todoDemoRunnerNew { scenario := none }).scenario = "basic" ∧
    (todoDemoRunnerNew { scenario := some "" }).scenario = "basic" ∧
    (s ≠ "" →
      (todoDemoRunnerNew { scenario := some s }).scenario = s ∧
      displayConfig (todoDemoRunnerNew { scenario := some s }) =
        Except.error "TypeError: cannot read properties of undefined") := by
  have hcfg : SCENARIOS s = none := by
    simp [SCENARIOS, h1, h2, h3]
  refine ⟨hcfg, rfl, rfl, fun hne => ?_⟩
  have hsc : (todoDemoRunnerNew { scenario := some s }).scenario = s := by
    simp [todoDemoRunnerNew, jsOrString, hne]
  refine ⟨hsc, ?_⟩
  simp [displayConfig, hsc, hcfg]

/-- Witness for the amended C1 at the concrete unknown identifier
`custom`. -/
theorem unknown_scenario_amended_witness :
    getScenarioConfig "custom" = none ∧
    (todoDemoRunnerNew { scenario := some "custom" }).scenario = "custom" :=
  ⟨(unknown_scenario_amended "custom" (by decide) (by decide) (by decide)).1,
   ((unknown_scenario_amended "custom" (by decide) (by decide) (by decide)).2.2.2
      (by decide)).1⟩

/-- `parseInt` restricted to what the demo meets: the decimal digits the
string starts with, `none` for `NaN` (no leading digits or no string). -/
def jsParseInt (s : String) : Option Nat :=
  if s.takeWhile Char.isDigit = "" then none
  else (s.takeWhile Char.isDigit).toNat?

/-- The CLI option object built at module load (`run-demo.js` lines
452-457): `scenario: process.env.DEMO_SCENARIO || 'basic'`,
`mockMode: process.env.MOCK_MODE === 'true'`,
`budget: parseInt(process.env.DEMO_BUDGET) || 10`,
`verbose: process.argv.includes('--verbose')`. -/
def cliOptions (env : String → Option String) (argv : List String) :
    RunnerOptions :=
  { scenario := some (jsOrString (env "DEMO_SCENARIO") "basic")
    mockMode := some (decide (env "MOCK_MODE" = some "true"))
    budget := some (jsOrNat ((env "DEMO_BUDGET").bind jsParseInt) 10)
    verbose := some (argv.contains "--verbose") }

/-- Claim C10: with an empty options object the constructor defaults are
scenario `basic`, mockMode `true`, budget `10`, verbose `false`; a
provided budget of 0 is falsy and replaced by 10; and under the CLI
option parsing with an empty environment the mock-mode default is
instead `MOCK_MODE === 'true'`, i.e. `false` (real mode) — the opposite
of the programmatic default — while an explicit `MOCK_MODE=true` gives
mock mode. -/
theorem constructor_and_cli_defaults :
    todoDemoRunnerNew {} = ⟨"basic", true, 10, false⟩ ∧
    (todoDemoRunnerNew { budget := some 0 }).budget = 10 ∧
    cliOptions (fun _ => none) [] =
      { scenario := some "basic", mockMode := some false,
        budget := some 10, verbose := some false } ∧
    todoDemoRunnerNew (cliOptions (fun _ => none) []) =
      ⟨"basic", false, 10, false⟩ ∧
    (cliOptions (fun v => if v = "MOCK_MODE" then some "true" else none)
        []).mockMode = some true := by
  exact ⟨rfl, rfl, rfl, rfl, by decide⟩

/-- The orchestrator final report fields `displayResults` reads
(`run-demo.js` lines 380-398). -/
structure FinalReport where
  tasksCompleted : Nat
  totalTasks : Nat
  tasksFailed : Nat
deriving DecidableEq, Repr

/-- The three ways `TodoDemoRunner.run` (`run-demo.js` lines 46-83) can
end.  `preTryError` is an error thrown before the `try` block — in
`interactiveSetup` or `displayConfig` (lines 50-55), e.g. the TypeError
on an unknown non-empty scenario: the async `run` then rejects, and the
top-level `runner.run().catch(console.error)` (line 461) only logs it.
`fatal` is any error thrown inside the `try` block (initialize,
createAgents, queueTasks, execute); `finished` carries the orchestrator
final report and whether `cleanup` itself threw.  Modelled from the spec
for the external orchestrator behaviour: completion is signalled once
every queued task reaches a terminal state, and per-task failures are
delivered as `taskFailed` events rather than thrown, so a run with
failed tasks still reaches `displayResults` and `cleanup`. -/
inductive RunOutcome where
  | preTryError : RunOutcome
  | fatal : RunOutcome
  | finished : FinalReport → Bool → RunOutcome
deriving DecidableEq, Repr

/-- The demo process exit code: the `catch` of `run` calls
`process.exit(1)` (`run-demo.js` line 81); `cleanup` (lines 422-442)
calls `process.exit(1)` if shutdown threw and `process.exit(0)`
otherwise — without consulting the report.  On an error before the
`try` block, `runner.run().catch(console.error)` logs the rejection and
nothing keeps the event loop alive (orchestrator and API are only
created inside the `try`), so the process ends with code 0. -/
def runExitCode : RunOutcome → Nat
  | RunOutcome.preTryError => 0
  | RunOutcome.fatal => 1
  | RunOutcome.finished _ cleanupThrew => if cleanupThrew then 1 else 0

/-- The success flag `displayResults` prints (`run-demo.js` line 386):
`report.tasksCompleted === report.totalTasks`. -/
def reportSuccess (r : FinalReport) : Bool :=
  r.tasksCompleted == r.totalTasks

/-- Full success of a run: it finished and every queued task completed. -/
def fullSuccess : RunOutcome → Bool
  | RunOutcome.preTryError => false
  | RunOutcome.fatal => false
  | RunOutcome.finished r _ => reportSuccess r

/-- Claim C7 counterexample: a run in which only 2 of 3 queued tasks
completed (one failed) but cleanup went through exits with code 0, while
the final report's own success flag is false; and a run killed by an
error before the `try` block (e.g. the unknown-scenario TypeError in
`displayConfig`) also exits 0 — in neither direction does exit code 0
coincide with full success. -/
theorem exit_code_counterexample :
    runExitCode (RunOutcome.finished ⟨2, 3, 1⟩ false) = 0 ∧
    fullSuccess (RunOutcome.finished ⟨2, 3, 1⟩ false) = false ∧
    runExitCode RunOutcome.preTryError = 0 ∧
    fullSuccess RunOutcome.preTryError = false :=
  ⟨rfl, rfl, rfl, rfl⟩

/-- Claim C7 amended: the demo exits 0 in exactly two cases — the run
reached cleanup with no error in the `try` block and cleanup succeeded
(irrespective of per-task failures, which do not raise and only show in
the final report's success flag), or an error was thrown before the
`try` block and `runner.run().catch(console.error)` merely logged it;
only an error inside the `try` block or a cleanup error terminates with
exit code 1. -/
theorem exit_code_amended (o : RunOutcome) :
    (runExitCode o = 0 ↔
      (∃ r, o = RunOutcome.finished r false) ∨ o = RunOutcome.preTryError) ∧
    (o = RunOutcome.fatal → runExitCode o = 1) := by
  cases o with
  | preTryError =>
    refine ⟨?_, fun h => nomatch h⟩
    simp [runExitCode]
  | fatal =>
    refine ⟨?_, fun _ => rfl⟩
    simp [runExitCode]
  | finished r c =>
    refine ⟨?_, fun h => nomatch h⟩
    cases c <;> simp [runExitCode]

/-- Witness for the amended C7: a fatal error inside the try block exits
1; a clean finish (whatever the report) and a pre-try error both exit
0. -/
theorem exit_code_amended_witness :
    runExitCode RunOutcome.fatal = 1 ∧
    runExitCode (RunOutcome.finished ⟨3, 3, 0⟩ false) = 0 ∧
    runExitCode RunOutcome.preTryError = 0 :=
  ⟨(exit_code_amended RunOutcome.fatal).2 rfl,
   (exit_code_amended (RunOutcome.finished ⟨3, 3, 0⟩ false)).1.mpr
     (Or.inl ⟨⟨3, 3, 0⟩, rfl⟩),
   (exit_code_amended RunOutcome.preTryError).1.mpr (Or.inr rfl)⟩

/-- The two possible winners of the race in `runE2ETest`
(`test-e2e.js` lines 127-135) between the 30-second `setTimeout` and
`orchestrator.waitForCompletion()`. -/
inductive RaceWinner where
  | completion : RaceWinner
  | timer : RaceWinner
deriving DecidableEq, Repr

/-- The wait step of `runE2ETest`: if completion arrives first, the
`await` resolves; if the 30-second timer fires first, its callback
raises `Error('Execution timeout after 30 seconds')`, fatal for the
whole run. -/
def e2eWaitForCompletion : RaceWinner → Except String Unit
  | RaceWinner.completion => Except.ok ()
  | RaceWinner.timer => Except.error "Execution timeout after 30 seconds"

/-- Whether `clearTimeout` (`test-e2e.js` line 135) is reached,
cancelling the timer: only when completion wins the race. -/
def e2eTimerCleared : RaceWinner → Bool
  | RaceWinner.completion => true
  | RaceWinner.timer => false

/-- The e2e process exit code: `runE2ETest` returns the verdict when the
wait resolves, any raised error yields false, and the top level runs
`process.exit(success ? 0 : 1)` (`test-e2e.js` lines 225-230). -/
def e2eExitCode (w : RaceWinner) (verdict : Bool) : Nat :=
  match e2eWaitForCompletion w with
  | Except.error _ => 1
  | Except.ok _ => if verdict then 0 else 1

/-- Claim C8: the 30-second timer races the completion signal.  When the
timer wins, the wait fails with the execution-timeout error and the test
process exits non-zero whatever the would-be verdict; when completion
wins, the timer is cleared and has no effect — the exit code is decided
by the verdict alone. -/
theorem timeout_race :
    e2eWaitForCompletion RaceWinner.timer =
      Except.error "Execution timeout after 30 seconds" ∧
    e2eExitCode RaceWinner.timer true = 1 ∧
    e2eExitCode RaceWinner.timer false = 1 ∧
    e2eTimerCleared RaceWinner.completion = true ∧
    e2eTimerCleared RaceWinner.timer = false ∧
    e2eExitCode RaceWinner.completion true = 0 ∧
    e2eExitCode RaceWinner.completion false = 1 :=
  ⟨rfl, rfl, rfl, rfl, rfl, rfl, rfl⟩

/-- Modelled from the spec: the quality-gate status vocabulary of the
external orchestrator event stream,
`qualityGateResult{gate, result:{status ∈ {pass, fail, skipped,
error}}}` — the gate result objects are emitted by
`@liftping/repochief-core`, which is not among the sources. -/
def gateStatusVocab : List String :=
  ["pass", "fail", "skipped", "error"]

/-- The `gateStatuses` tally of `runE2ETest` (`test-e2e.js` lines
151-154): how many collected gate results carry the given status string
(a status never seen has count 0, read back as `undefined`). -/
def gateStatusCount (statuses : List String) (status : String) : Nat :=
  (statuses.filter (fun x => x == status)).length

/-- `hasFailedGates` (`test-e2e.js` line 190):
`gateStatuses.failed > 0 || gateStatuses.error > 0`; for a key with no
entry the JS comparison `undefined > 0` is false, which the count-0 case
models. -/
def hasFailedGates (statuses : List String) : Bool :=
  decide (0 < gateStatusCount statuses "failed") ||
    decide (0 < gateStatusCount statuses "error")

/-- The `allTestsPassed` conjunction (`test-e2e.js` lines 142-148):
`report.tasksCompleted === tasks.length`, `report.tasksFailed === 0`,
`failedTasks === 0`, `completedTasks === tasks.length`,
`qualityGateResults.length > 0`, `.every(test => test === true)`. -/
def allTestsPassedCheck (reportTasksCompleted reportTasksFailed : Nat)
    (failedTasks completedTasks numTasks numGateResults : Nat) : Bool :=
  [reportTasksCompleted == numTasks,
   reportTasksFailed == 0,
   failedTasks == 0,
   completedTasks == numTasks,
   decide (0 < numGateResults)].all (fun t => t == true)

/-- `testSuccess` (`test-e2e.js` line 191):
`allTestsPassed && artifactsCreated && !hasFailedGates`. -/
def e2eTestSuccess (allTestsPassed artifactsCreated : Bool)
    (statuses : List String) : Bool :=
  allTestsPassed && artifactsCreated && !hasFailedGates statuses

/-- Claim C9 evaluated at the failing input: in a run where every task
completed, artifacts exist and the single quality gate reports `fail` —
the failing status of the spec's vocabulary — the verdict logic still
judges the test a success, because `hasFailedGates` consults the tally
key `failed`, a status that never occurs in the vocabulary; an `error`
gate does block success and `skipped` gates are acceptable, as the claim
says. -/
theorem failing_gate_slips_through :
    gateStatusVocab.contains "fail" = true ∧
    gateStatusVocab.contains "failed" = false ∧
    hasFailedGates ["fail"] = false ∧
    allTestsPassedCheck 3 0 0 3 3 1 = true ∧
    e2eTestSuccess (allTestsPassedCheck 3 0 0 3 3 1) true ["fail"] = true ∧
    e2eTestSuccess true true ["error"] = false ∧
    e2eTestSuccess true true ["skipped", "skipped", "pass"] = true := by
  exact ⟨by decide, by decide, rfl, rfl, rfl, rfl, rfl⟩
